import Mathlib

/-!
Verification development for the `eee158_module_06` platform-support layer
(`src/platform/gpio.c`, `src/platform.h`): a shallow embedding of the
pushbutton event capture, the blink sequencer, the initialization sequence,
and the tick/USART interfaces, with theorems settling the specified
properties.
-/

namespace Gpio

/-! ## Pushbutton event capture (`src/platform/gpio.c`, lines 207–270)

The C state is `static volatile uint16_t pb_press_mask`, initialized to 0.
The edge-interrupt handler `EIC_EXTINT_2_Handler` executes

  pb_press_mask &= ~PLATFORM_PB_ONBOARD_MASK;
  if ((EIC_SEC_REGS->EIC_PINSTATE & (1 << 2)) == 0)
      pb_press_mask |= PLATFORM_PB_ONBOARD_PRESS;
  else
      pb_press_mask |= PLATFORM_PB_ONBOARD_RELEASE;

On a `uint16_t`, `&= ~PLATFORM_PB_ONBOARD_MASK` is `&&& 0xFFFC`. The pin
level (`EIC_PINSTATE` bit 2) is modelled as a boolean `pinLow` (the button is
active-low: pin reading low means pressed). -/

/-- Event-mask bit for a press, from `src/platform.h` line 36. -/
def PLATFORM_PB_ONBOARD_PRESS : Nat := 0x0001

/-- Event-mask bit for a release, from `src/platform.h` line 39. -/
def PLATFORM_PB_ONBOARD_RELEASE : Nat := 0x0002

/-- Combined on-board mask, from `src/platform.h` line 42. -/
def PLATFORM_PB_ONBOARD_MASK : Nat :=
  PLATFORM_PB_ONBOARD_PRESS ||| PLATFORM_PB_ONBOARD_RELEASE

/-- The 16-bit complement `~PLATFORM_PB_ONBOARD_MASK` as it acts on the
`uint16_t` variable `pb_press_mask`: `0xFFFC`. -/
def PB_MASK_COMPL : Nat := 0xFFFC

/-- Embedding of `EIC_EXTINT_2_Handler` (`gpio.c` lines 209–219) acting on the
stored mask: clear both on-board bits, then set `PRESS` if the pin reads low,
`RELEASE` otherwise. `pinLow` models `(EIC_PINSTATE & (1 << 2)) == 0`. -/
def EIC_EXTINT_2_Handler (pinLow : Bool) (m : Nat) : Nat :=
  let m1 := m &&& PB_MASK_COMPL
  if pinLow then m1 ||| PLATFORM_PB_ONBOARD_PRESS
  else m1 ||| PLATFORM_PB_ONBOARD_RELEASE

/-- Embedding of `platform_pb_get_event` (`gpio.c` lines 265–270): returns the
stored mask and the new stored value (zero). -/
def platform_pb_get_event (m : Nat) : Nat × Nat := (m, 0)

/-- One transition of the stored mask: either the edge-interrupt handler fires
(at some pin level) or the polling domain consumes the mask. These are the
only two writers of `pb_press_mask` in `gpio.c`. -/
inductive PbStep : Nat → Nat → Prop
  | handler (pinLow : Bool) (m : Nat) : PbStep m (EIC_EXTINT_2_Handler pinLow m)
  | getEvent (m : Nat) : PbStep m (platform_pb_get_event m).snd

/-- Stored-mask values reachable from the initializer `pb_press_mask = 0`
(`gpio.c` line 207) under handler firings and consumer reads. -/
inductive PbReachable : Nat → Prop
  | init : PbReachable 0
  | step {m n : Nat} : PbReachable m → PbStep m n → PbReachable n

/-! ## Blink sequencer (`src/platform/gpio.c`, lines 145–199)

`platform_blink_modify` switches on `currentSetting`. The `OFF`/`ON` branches
write `PORT_OUTCLR`/`PORT_OUTSET` for PA15 unconditionally. Each timed branch
writes the period constant into `TC_CC[0]`, then calls `read_count()` twice:

  if (read_count() < TC_CC[0]*duty) PORT_OUTCLR = (1 << 15);
  if (read_count() > TC_CC[0]*duty) PORT_OUTSET = (1 << 15);

The two `read_count()` samples are modelled as the parameters `c1` and `c2`.
`read_count()` returns the 16-bit `TC_COUNT`, an integer, and the C compares
it against the `double` products `23438*0.9`, `11719*0.8`, `7032*0.5`. The
first two products are not integers and their floating-point values lie
strictly between the same consecutive integers as the exact values (21094.2…
and 9375.2…), and `7032*0.5` is exactly `3516.0`; hence every comparison of an
integer count against the `double` product coincides with the exact rational
comparison, embedded here in scaled integers: `c < period*duty` iff
`10*c < period*duty10` with `duty10 ∈ {9, 8, 5}`. -/

/-- Blink setting, matching `PLATFORM_BLINK_*` of `src/platform.h` lines
56–68 and the `switch (currentSetting)` of `gpio.c`. -/
inductive BlinkSetting
  | OFF
  | SLOW
  | MEDIUM
  | FAST
  | ON
deriving DecidableEq, Repr

/-- Observable effect of one `platform_blink_modify` invocation: the PA15
output level afterwards, which PORT registers were written, whether
`TC_CC[0]` was written, and how many `read_count()` calls were made. -/
structure BlinkResult where
  out15 : Bool
  wroteClr : Bool
  wroteSet : Bool
  wroteCC : Bool
  countReads : Nat
deriving DecidableEq, Repr

/-- Effect of a timed branch of `platform_blink_modify` (`gpio.c` lines
164–193): the first sample `c1` below the threshold writes `OUTCLR`, the
second sample `c2` above it writes `OUTSET` (in that order, so `OUTSET`
prevails on the output level); at the threshold neither is written.
Thresholds are in tenths: `10*c` versus `period * duty10`. -/
def blinkTimed (period duty10 c1 c2 : Nat) (prev : Bool) : BlinkResult :=
  let clr : Bool := decide (10 * c1 < period * duty10)
  let set : Bool := decide (period * duty10 < 10 * c2)
  { out15 := if set then true else if clr then false else prev
    wroteClr := clr
    wroteSet := set
    wroteCC := true
    countReads := 2 }

/-- Embedding of `platform_blink_modify` (`gpio.c` lines 154–199). `c1` and
`c2` are the values returned by the two `read_count()` calls of a timed
branch (unused by `OFF`/`ON`); `prev` is the PA15 output level before the
call. -/
def platform_blink_modify (s : BlinkSetting) (c1 c2 : Nat) (prev : Bool) :
    BlinkResult :=
  match s with
  | .OFF => { out15 := false, wroteClr := true, wroteSet := false,
              wroteCC := false, countReads := 0 }
  | .SLOW => blinkTimed 23438 9 c1 c2 prev
  | .MEDIUM => blinkTimed 11719 8 c1 c2 prev
  | .FAST => blinkTimed 7032 5 c1 c2 prev
  | .ON => { out15 := true, wroteClr := false, wroteSet := true,
             wroteCC := false, countReads := 0 }

/-- Design constants of the timed modes, from the literal constants of
`gpio.c` lines 165–190: `(period, duty10)` with the duty fraction given in
tenths (`0.9 → 9`, `0.8 → 8`, `0.5 → 5`). `none` for the degenerate modes. -/
def timedParams : BlinkSetting → Option (Nat × Nat)
  | .SLOW => some (23438, 9)
  | .MEDIUM => some (11719, 8)
  | .FAST => some (7032, 5)
  | _ => none

/-! ## Initialization sequence (`src/platform/gpio.c`, lines 315–335) -/

/-- The bring-up steps invoked by `platform_init`, one constructor per
function called in its body. -/
inductive InitStep
  | raise_perf_level
  | EVSYS_init
  | EIC_init_early
  | TC0_Init
  | PB_init
  | Emergency_Pins_Init
  | blink_init
  | platform_usart_init
  | EIC_init_late
  | platform_systick_init
  | NVIC_init
deriving DecidableEq, Repr, Fintype

/-- Embedding of `platform_init` (`gpio.c` lines 315–335): the straight-line
call sequence, in program order. -/
def platform_init : List InitStep :=
  [ .raise_perf_level, .EVSYS_init, .EIC_init_early, .TC0_Init, .PB_init,
    .Emergency_Pins_Init, .blink_init, .platform_usart_init, .EIC_init_late,
    .platform_systick_init, .NVIC_init ]

/-- Position of a step in the `platform_init` call sequence. -/
def initIdx (s : InitStep) : Nat := platform_init.indexOf s

end Gpio

namespace Tick

/-! ## Tick arithmetic (`src/platform.h`, lines 87–142)

`platform_timespec_t` is `{uint32_t nr_sec; uint32_t nr_nsec}` with
`nr_nsec` on `[0, 999999999]`. -/

/-- Embedding of `platform_timespec_t` (`src/platform.h` lines 87–98); both
fields are 32-bit unsigned values. -/
structure platform_timespec_t where
  nr_sec : Nat
  nr_nsec : Nat
deriving DecidableEq, Repr

/-- Field validity: both fields fit `uint32_t` and the nanosecond field lies
on `[0, 999999999]` as documented in `src/platform.h`. -/
def tsValid (t : platform_timespec_t) : Prop :=
  t.nr_sec < 4294967296 ∧ t.nr_nsec ≤ 999999999

instance (t : platform_timespec_t) : Decidable (tsValid t) := by
  unfold tsValid
  infer_instance

/-- Modelled from the spec: `platform_tick_delta` is only declared in
`src/platform.h` (lines 129–142); its implementation file is not under
`src/`. Per the spec it computes `lhs - rhs`, normalizing the nanosecond
borrow across the second boundary, and corrects for exactly one wraparound of
the underlying 32-bit second counter (modular borrow subtraction). -/
def platform_tick_delta (lhs rhs : platform_timespec_t) : platform_timespec_t :=
  if lhs.nr_nsec < rhs.nr_nsec then
    { nr_sec := (lhs.nr_sec + 4294967296 - rhs.nr_sec - 1) % 4294967296
      nr_nsec := lhs.nr_nsec + 1000000000 - rhs.nr_nsec }
  else
    { nr_sec := (lhs.nr_sec + 4294967296 - rhs.nr_sec) % 4294967296
      nr_nsec := lhs.nr_nsec - rhs.nr_nsec }

/-- True elapsed-time addition with 32-bit wraparound of the second counter:
the sample the counter produces a duration `d` after sample `t`. Used to
state wraparound-correctness of `platform_tick_delta`. -/
def tickAddWrap (t d : platform_timespec_t) : platform_timespec_t :=
  if 1000000000 ≤ t.nr_nsec + d.nr_nsec then
    { nr_sec := (t.nr_sec + d.nr_sec + 1) % 4294967296
      nr_nsec := t.nr_nsec + d.nr_nsec - 1000000000 }
  else
    { nr_sec := (t.nr_sec + d.nr_sec) % 4294967296
      nr_nsec := t.nr_nsec + d.nr_nsec }

end Tick

namespace Usart

/-! ## Asynchronous serial transmit channel (`src/platform.h`, lines 185–215)

Only declarations are under `src/`; the implementation (`platform_usart_*.c`)
is not. The channel state and its operations are modelled from the spec. -/

/-- Embedding of `platform_usart_tx_bufdesc_t` (`src/platform.h` lines
187–193): one transmission fragment, a borrowed buffer with its length. The
buffer contents are irrelevant to the channel protocol and kept abstract as
an identifier. -/
structure platform_usart_tx_bufdesc_t where
  buf : Nat
  len : Nat
deriving DecidableEq, Repr

/-- Modelled from the spec: the transmit side of the CDC channel holds at most
one in-flight fragment list (`ChannelState`: single outstanding operation,
no queueing beyond it). -/
structure CdcTxState where
  busy : Bool
  pending : List platform_usart_tx_bufdesc_t
deriving DecidableEq, Repr

/-- Modelled from the spec: `platform_usart_cdc_tx_async` (declared in
`src/platform.h` lines 208–209, implementation not under `src/`). Rejected
(returns `false`) with the state untouched if a transmission is already in
progress; otherwise accepts the fragment list and marks the channel busy. -/
def platform_usart_cdc_tx_async (desc : List platform_usart_tx_bufdesc_t)
    (st : CdcTxState) : Bool × CdcTxState :=
  if st.busy then (false, st)
  else (true, { busy := true, pending := desc })

/-- Modelled from the spec: `platform_usart_cdc_tx_abort` (declared in
`src/platform.h` line 212) unconditionally stops any in-progress
transmission, leaving the channel idle. -/
def platform_usart_cdc_tx_abort (_st : CdcTxState) : CdcTxState :=
  { busy := false, pending := [] }

/-- Modelled from the spec: hardware completion of an in-flight transmission
(signalled by the interrupt handler) leaves the channel idle and ready for a
new enqueue. -/
def cdcTxComplete (_st : CdcTxState) : CdcTxState :=
  { busy := false, pending := [] }

/-- Modelled from the spec: `platform_usart_cdc_tx_busy` (declared in
`src/platform.h` line 215) reports whether a transmission is outstanding. -/
def platform_usart_cdc_tx_busy (st : CdcTxState) : Bool := st.busy

end Usart

/-! ## Theorems -/

namespace Gpio

/-- Distribution of a bitwise `and` over a bitwise `or` on the left summand
side, for natural numbers. -/
theorem nat_or_and_right (x y z : Nat) :
    (x ||| y) &&& z = (x &&& z) ||| (y &&& z) := by
  rw [Nat.and_comm, Nat.and_or_distrib_left, Nat.and_comm z x, Nat.and_comm z y]

/-- Masking with the 16-bit complement `0xFFFC` clears both on-board bits. -/
theorem and_compl_mask (m : Nat) :
    (m &&& PB_MASK_COMPL) &&& PLATFORM_PB_ONBOARD_MASK = 0 := by
  rw [Nat.and_assoc]
  have h : PB_MASK_COMPL &&& PLATFORM_PB_ONBOARD_MASK = 0 := by decide
  rw [h, Nat.and_zero]

/-- Extracting the `PRESS` bit factors through the on-board mask. -/
theorem and_mask_press (r : Nat) :
    r &&& PLATFORM_PB_ONBOARD_PRESS
      = (r &&& PLATFORM_PB_ONBOARD_MASK) &&& PLATFORM_PB_ONBOARD_PRESS := by
  rw [Nat.and_assoc]
  have h : PLATFORM_PB_ONBOARD_MASK &&& PLATFORM_PB_ONBOARD_PRESS
      = PLATFORM_PB_ONBOARD_PRESS := by decide
  rw [h]

/-- Extracting the `RELEASE` bit factors through the on-board mask. -/
theorem and_mask_release (r : Nat) :
    r &&& PLATFORM_PB_ONBOARD_RELEASE
      = (r &&& PLATFORM_PB_ONBOARD_MASK) &&& PLATFORM_PB_ONBOARD_RELEASE := by
  rw [Nat.and_assoc]
  have h : PLATFORM_PB_ONBOARD_MASK &&& PLATFORM_PB_ONBOARD_RELEASE
      = PLATFORM_PB_ONBOARD_RELEASE := by decide
  rw [h]

/-- The on-board bits of the mask produced by one handler invocation are
exactly the single event bit selected by the pin level. -/
theorem handler_and_mask (pinLow : Bool) (m : Nat) :
    EIC_EXTINT_2_Handler pinLow m &&& PLATFORM_PB_ONBOARD_MASK
      = if pinLow then PLATFORM_PB_ONBOARD_PRESS
        else PLATFORM_PB_ONBOARD_RELEASE := by
  unfold EIC_EXTINT_2_Handler
  cases pinLow
  · simp only [Bool.false_eq_true, if_false]
    rw [nat_or_and_right, and_compl_mask, Nat.zero_or]
    decide
  · simp only [if_true]
    rw [nat_or_and_right, and_compl_mask, Nat.zero_or]
    decide

/-- Every reachable value of `pb_press_mask` is `0`, `PRESS`, or `RELEASE`. -/
theorem pb_reachable_cases {m : Nat} (h : PbReachable m) :
    m = 0 ∨ m = 1 ∨ m = 2 := by
  induction h with
  | init => exact Or.inl rfl
  | step hr hs ih =>
    cases hs with
    | handler pinLow m =>
      rcases ih with h0 | h1 | h2 <;> subst_vars <;> cases pinLow <;> decide
    | getEvent m => exact Or.inl rfl

/-- C3: every invocation of the edge-interrupt handler, from every prior mask
value, first clears both the `PRESS` and `RELEASE` bits (the intermediate
value `m &&& ~MASK` has both cleared) and then sets exactly one of them —
`PRESS` when the debounced pin reads low, `RELEASE` otherwise — so a single
invocation never leaves both bits set. -/
theorem C3_eic_handler_overwrites (pinLow : Bool) (m : Nat) :
    (m &&& PB_MASK_COMPL) &&& PLATFORM_PB_ONBOARD_MASK = 0
    ∧ EIC_EXTINT_2_Handler pinLow m
      = (if pinLow then (m &&& PB_MASK_COMPL) ||| PLATFORM_PB_ONBOARD_PRESS
         else (m &&& PB_MASK_COMPL) ||| PLATFORM_PB_ONBOARD_RELEASE)
    ∧ (EIC_EXTINT_2_Handler pinLow m &&& PLATFORM_PB_ONBOARD_MASK
        = if pinLow then PLATFORM_PB_ONBOARD_PRESS
          else PLATFORM_PB_ONBOARD_RELEASE)
    ∧ ¬(EIC_EXTINT_2_Handler pinLow m &&& PLATFORM_PB_ONBOARD_PRESS
          = PLATFORM_PB_ONBOARD_PRESS
        ∧ EIC_EXTINT_2_Handler pinLow m &&& PLATFORM_PB_ONBOARD_RELEASE
          = PLATFORM_PB_ONBOARD_RELEASE) := by
  have hmask := handler_and_mask pinLow m
  refine ⟨and_compl_mask m, ?_, hmask, ?_⟩
  · cases pinLow <;> rfl
  · rintro ⟨hp, hr⟩
    rw [and_mask_press, hmask] at hp
    rw [and_mask_release, hmask] at hr
    cases pinLow
    · exact absurd hp (by decide)
    · exact absurd hr (by decide)

/-- C9: starting from the initializer `pb_press_mask = 0`, every value the
stored mask can reach under handler invocations and `platform_pb_get_event`
calls lies within `PLATFORM_PB_ONBOARD_MASK`, and hence the value returned by
`platform_pb_get_event` never has a bit set outside `PRESS` and `RELEASE`. -/
theorem C9_pb_mask_invariant {m : Nat} (h : PbReachable m) :
    m &&& PLATFORM_PB_ONBOARD_MASK = m
    ∧ (platform_pb_get_event m).fst &&& PLATFORM_PB_ONBOARD_MASK
      = (platform_pb_get_event m).fst := by
  rcases pb_reachable_cases h with h0 | h1 | h2 <;> subst_vars <;> exact ⟨by decide, by decide⟩

/-- Witness for C9 at the reachable mask value `PRESS = 1`, produced by one
press-edge handler invocation from the initial state. -/
theorem C9_pb_mask_invariant_witness :
    (1 : Nat) &&& PLATFORM_PB_ONBOARD_MASK = 1
    ∧ (platform_pb_get_event 1).fst &&& PLATFORM_PB_ONBOARD_MASK
      = (platform_pb_get_event 1).fst := by
  have e : EIC_EXTINT_2_Handler true 0 = 1 := by decide
  exact C9_pb_mask_invariant (e ▸ PbReachable.step PbReachable.init (PbStep.handler true 0))

/-- C4: `platform_pb_get_event` returns the currently accumulated mask and
resets the stored mask to zero; after one press event (handler firing with
the pin low on the initial state) a call returns `PRESS`, and an immediate
second call with no intervening handler invocation returns the empty mask. -/
theorem C4_pb_get_event_read_and_clear :
    (∀ m : Nat, platform_pb_get_event m = (m, 0))
    ∧ (platform_pb_get_event (EIC_EXTINT_2_Handler true 0)).fst
      = PLATFORM_PB_ONBOARD_PRESS
    ∧ (platform_pb_get_event
        (platform_pb_get_event (EIC_EXTINT_2_Handler true 0)).snd).fst = 0 :=
  ⟨fun _ => rfl, by decide, by decide⟩

/-- C1 (counterexample): from the initial state, a press-edge handler firing
followed by a release-edge firing before any read leaves the stored mask at
`RELEASE = 2`, so the next `platform_pb_get_event` does not return a mask
containing both `PRESS` and `RELEASE` as the claim states. -/
theorem C1_combined_event_cex :
    (platform_pb_get_event
        (EIC_EXTINT_2_Handler false (EIC_EXTINT_2_Handler true 0))).fst = 2
    ∧ ¬((platform_pb_get_event
          (EIC_EXTINT_2_Handler false (EIC_EXTINT_2_Handler true 0))).fst
            &&& PLATFORM_PB_ONBOARD_PRESS = PLATFORM_PB_ONBOARD_PRESS
        ∧ (platform_pb_get_event
            (EIC_EXTINT_2_Handler false (EIC_EXTINT_2_Handler true 0))).fst
            &&& PLATFORM_PB_ONBOARD_RELEASE = PLATFORM_PB_ONBOARD_RELEASE) := by
  decide

/-- C1 (amended): if a press-edge firing and then a release-edge firing both
occur before any consumer read, the next `platform_pb_get_event` returns a
mask containing `RELEASE` but not `PRESS` (the clear-then-set of the handler
overwrites the earlier event), and a subsequent call with no intervening
event returns the empty mask — from every prior mask value. -/
theorem C1_press_release_overwrite (m : Nat) :
    (platform_pb_get_event
        (EIC_EXTINT_2_Handler false (EIC_EXTINT_2_Handler true m))).fst
      &&& PLATFORM_PB_ONBOARD_RELEASE = PLATFORM_PB_ONBOARD_RELEASE
    ∧ (platform_pb_get_event
        (EIC_EXTINT_2_Handler false (EIC_EXTINT_2_Handler true m))).fst
      &&& PLATFORM_PB_ONBOARD_PRESS = 0
    ∧ (platform_pb_get_event
        (platform_pb_get_event
          (EIC_EXTINT_2_Handler false (EIC_EXTINT_2_Handler true m))).snd).fst
      = 0 := by
  have hmask := handler_and_mask false (EIC_EXTINT_2_Handler true m)
  simp only [Bool.false_eq_true, if_false] at hmask
  refine ⟨?_, ?_, rfl⟩
  · show EIC_EXTINT_2_Handler false (EIC_EXTINT_2_Handler true m)
      &&& PLATFORM_PB_ONBOARD_RELEASE = PLATFORM_PB_ONBOARD_RELEASE
    rw [and_mask_release, hmask]
    decide
  · show EIC_EXTINT_2_Handler false (EIC_EXTINT_2_Handler true m)
      &&& PLATFORM_PB_ONBOARD_PRESS = 0
    rw [and_mask_press, hmask]
    decide

/-- Output behavior of a timed blink branch when both counter samples agree:
strictly above the scaled threshold the output is set, strictly below it is
cleared, and at the threshold it keeps its previous level. -/
theorem blinkTimed_out (p d10 c : Nat) (prev : Bool) :
    (p * d10 < 10 * c → (blinkTimed p d10 c c prev).out15 = true)
    ∧ (10 * c < p * d10 → (blinkTimed p d10 c c prev).out15 = false)
    ∧ (10 * c = p * d10 → (blinkTimed p d10 c c prev).out15 = prev) := by
  refine ⟨fun h => ?_, fun h => ?_, fun h => ?_⟩
  · simp [blinkTimed, h]
  · have h2 : ¬ p * d10 < 10 * c := by omega
    simp [blinkTimed, h, h2]
  · have h1 : ¬ p * d10 < 10 * c := by omega
    have h2 : ¬ 10 * c < p * d10 := by omega
    simp [blinkTimed, h1, h2]

/-- C2 (counterexample): in `FAST` mode the threshold `7032 × 0.5 = 3516` is
an integer; at counter value `3516` (not above the threshold) with the output
previously high, `platform_blink_modify` leaves the output high, whereas the
claim requires it to be inactive. -/
theorem C2_blink_threshold_cex :
    ¬ 7032 * 5 < 10 * 3516
    ∧ (platform_blink_modify .FAST 3516 3516 true).out15 = true := by
  decide

/-- C2 (amended): for every timed blink mode with its design constants
(`SLOW`: period 23438, duty 0.9; `MEDIUM`: period 11719, duty 0.8; `FAST`:
period 7032, duty 0.5), when both counter samples of one
`platform_blink_modify` invocation read the value `c`, the indicator is set
active if `c` is strictly above `period × duty`, set inactive if strictly
below, and left unchanged if exactly equal (possible only in `FAST` mode); in
particular, in `SLOW` mode counter value 20000 yields inactive output and
22000 yields active output. -/
theorem C2_blink_thresholds (s : BlinkSetting) (p d10 : Nat)
    (h : timedParams s = some (p, d10)) (c : Nat) (prev : Bool) :
    ((p * d10 < 10 * c → (platform_blink_modify s c c prev).out15 = true)
      ∧ (10 * c < p * d10 → (platform_blink_modify s c c prev).out15 = false)
      ∧ (10 * c = p * d10 → (platform_blink_modify s c c prev).out15 = prev))
    ∧ (platform_blink_modify .SLOW 20000 20000 prev).out15 = false
    ∧ (platform_blink_modify .SLOW 22000 22000 prev).out15 = true := by
  refine ⟨?_, by simp [platform_blink_modify, blinkTimed], by simp [platform_blink_modify, blinkTimed]⟩
  cases s <;> simp only [timedParams, Option.some.injEq, Prod.mk.injEq,
    reduceCtorEq] at h
  all_goals obtain ⟨hp, hd⟩ := h
  all_goals subst hp
  all_goals subst hd
  all_goals exact blinkTimed_out _ _ c prev

/-- Witness for C2 at `SLOW` mode with counter value 22000: the threshold
hypothesis holds by computation and the output is active. -/
theorem C2_blink_thresholds_witness :
    timedParams BlinkSetting.SLOW = some (23438, 9)
    ∧ (platform_blink_modify .SLOW 22000 22000 false).out15 = true :=
  ⟨rfl, (C2_blink_thresholds .SLOW 23438 9 rfl 22000 false).1.1 (by decide)⟩

/-- C8: in `OFF` mode `platform_blink_modify` unconditionally forces the
indicator low (one `OUTCLR` write), and in `ON` mode unconditionally forces
it high (one `OUTSET` write); in both cases the result is the same for every
pair of counter samples, no `read_count()` call is made, and no timer
register is written. -/
theorem C8_blink_off_on_forced (c1 c2 : Nat) (prev : Bool) :
    platform_blink_modify .OFF c1 c2 prev
      = { out15 := false, wroteClr := true, wroteSet := false,
          wroteCC := false, countReads := 0 }
    ∧ platform_blink_modify .ON c1 c2 prev
      = { out15 := true, wroteClr := false, wroteSet := true,
          wroteCC := false, countReads := 0 } :=
  ⟨rfl, rfl⟩

/-- C10: for every timed blink mode, when both counter samples read a value
exactly equal to the scaled threshold `period × duty`, the invocation writes
neither the output-set nor the output-clear register and the indicator output
keeps its previous level. -/
theorem C10_blink_boundary_frame (s : BlinkSetting) (p d10 c : Nat)
    (prev : Bool) (h : timedParams s = some (p, d10))
    (hc : 10 * c = p * d10) :
    (platform_blink_modify s c c prev).wroteClr = false
    ∧ (platform_blink_modify s c c prev).wroteSet = false
    ∧ (platform_blink_modify s c c prev).out15 = prev := by
  have h1 : ¬ 10 * c < p * d10 := by omega
  have h2 : ¬ p * d10 < 10 * c := by omega
  cases s <;> simp only [timedParams, Option.some.injEq, Prod.mk.injEq,
    reduceCtorEq] at h
  all_goals obtain ⟨hp, hd⟩ := h
  all_goals subst hp
  all_goals subst hd
  all_goals simp [platform_blink_modify, blinkTimed, h1, h2]

/-- Witness for C10 at `FAST` mode, counter value 3516 (the exact threshold
`7032 × 0.5`), previous output high: no PORT write occurs and the output
stays high. -/
theorem C10_blink_boundary_frame_witness :
    timedParams BlinkSetting.FAST = some (7032, 5)
    ∧ 10 * 3516 = 7032 * 5
    ∧ ((platform_blink_modify .FAST 3516 3516 true).wroteClr = false
        ∧ (platform_blink_modify .FAST 3516 3516 true).wroteSet = false
        ∧ (platform_blink_modify .FAST 3516 3516 true).out15 = true) :=
  ⟨rfl, by decide, C10_blink_boundary_frame .FAST 7032 5 3516 true rfl (by decide)⟩

/-- C7: `platform_init` performs the bring-up steps in the strict order
clock/power bring-up first, then EVSYS/EIC early configuration, then
peripheral configuration (timer, pushbutton, emergency pins, GPIO, serial),
then the late EIC enable, with the NVIC interrupt enable performed last,
after every other initialization step. -/
theorem C7_platform_init_order :
    platform_init.head? = some InitStep.raise_perf_level
    ∧ initIdx .raise_perf_level < initIdx .EVSYS_init
    ∧ initIdx .EVSYS_init < initIdx .EIC_init_early
    ∧ initIdx .EIC_init_early < initIdx .TC0_Init
    ∧ initIdx .EIC_init_early < initIdx .PB_init
    ∧ initIdx .EIC_init_early < initIdx .blink_init
    ∧ initIdx .EIC_init_early < initIdx .platform_usart_init
    ∧ initIdx .TC0_Init < initIdx .EIC_init_late
    ∧ initIdx .PB_init < initIdx .EIC_init_late
    ∧ initIdx .Emergency_Pins_Init < initIdx .EIC_init_late
    ∧ initIdx .blink_init < initIdx .EIC_init_late
    ∧ initIdx .platform_usart_init < initIdx .EIC_init_late
    ∧ initIdx .EIC_init_late < initIdx .NVIC_init
    ∧ platform_init.getLast? = some InitStep.NVIC_init
    ∧ ∀ s : InitStep, s ≠ InitStep.NVIC_init →
        initIdx s < initIdx .NVIC_init := by
  decide

end Gpio

namespace Tick

/-- C5: for every pair of samples separated by a true elapsed duration `d`
with at most one wraparound of the 32-bit second counter (`lhs` is the sample
the counter produces a duration `d` after `rhs`, where the addition may wrap
once), `platform_tick_delta lhs rhs` recovers exactly `d`: the nanosecond
borrow is normalized across the second boundary and a single wraparound is
corrected, so a wrapped `lhs` numerically earlier than `rhs` yields the small
positive duration rather than the huge naive difference. -/
theorem C5_tick_delta_wrap_correct (rhs d : platform_timespec_t)
    (hr : tsValid rhs) (hd : tsValid d) :
    platform_tick_delta (tickAddWrap rhs d) rhs = d := by
  obtain ⟨ts, tn⟩ := rhs
  obtain ⟨ds, dn⟩ := d
  obtain ⟨hr1, hr2⟩ := hr
  obtain ⟨hd1, hd2⟩ := hd
  simp only at hr1 hr2 hd1 hd2
  unfold tickAddWrap platform_tick_delta
  by_cases hc : 1000000000 ≤ tn + dn
  · rw [if_pos hc]
    simp only
    rw [if_pos (by omega)]
    simp only [platform_timespec_t.mk.injEq]
    constructor <;> omega
  · rw [if_neg hc]
    simp only
    rw [if_neg (by omega)]
    simp only [platform_timespec_t.mk.injEq]
    constructor <;> omega

/-- Witness for C5 at the wraparound scenario of the spec: `rhs` is sampled 150 ns
before the 32-bit second counter wraps, the true duration is 150 ns, the
wrapped sample is `{sec = 0, nsec = 100}`, and `platform_tick_delta` returns
the small positive duration `{0, 150}` rather than a huge naive value. -/
theorem C5_tick_delta_wrap_correct_witness :
    tsValid ⟨4294967295, 999999950⟩
    ∧ tsValid ⟨0, 150⟩
    ∧ tickAddWrap ⟨4294967295, 999999950⟩ ⟨0, 150⟩
      = (⟨0, 100⟩ : platform_timespec_t)
    ∧ platform_tick_delta (tickAddWrap ⟨4294967295, 999999950⟩ ⟨0, 150⟩)
        ⟨4294967295, 999999950⟩ = ⟨0, 150⟩ :=
  ⟨by decide, by decide, by decide,
    C5_tick_delta_wrap_correct ⟨4294967295, 999999950⟩ ⟨0, 150⟩
      (by decide) (by decide)⟩

end Tick

namespace Usart

/-- C6: calling `platform_usart_cdc_tx_async` while a transmission is in
progress returns `false` and leaves the channel state unchanged; calling it
again after `platform_usart_cdc_tx_abort`, or after hardware completion,
returns `true`; and from an idle channel an enqueue is accepted and records
the fragment list. -/
theorem C6_cdc_tx_single_outstanding (st : CdcTxState)
    (d e : List platform_usart_tx_bufdesc_t) :
    (st.busy = true → platform_usart_cdc_tx_async d st = (false, st))
    ∧ (platform_usart_cdc_tx_async e (platform_usart_cdc_tx_abort st)).fst
      = true
    ∧ (platform_usart_cdc_tx_async e (cdcTxComplete st)).fst = true
    ∧ platform_usart_cdc_tx_async d ⟨false, []⟩ = (true, ⟨true, d⟩) := by
  refine ⟨fun h => ?_, rfl, rfl, rfl⟩
  simp [platform_usart_cdc_tx_async, h]

/-- Witness for C6 on a busy channel with empty fragment lists: the second
enqueue is rejected with the state untouched, and an enqueue right after an
abort is accepted. -/
theorem C6_cdc_tx_single_outstanding_witness :
    platform_usart_cdc_tx_async [] ⟨true, []⟩
      = (false, (⟨true, []⟩ : CdcTxState))
    ∧ (platform_usart_cdc_tx_async []
        (platform_usart_cdc_tx_abort ⟨true, []⟩)).fst = true :=
  ⟨(C6_cdc_tx_single_outstanding ⟨true, []⟩ [] []).1 rfl,
    (C6_cdc_tx_single_outstanding ⟨true, []⟩ [] []).2.1⟩

end Usart
